import Mathlib

/-!
# Verification of the scabbard consensus event log writer

A shallow embedding of `add_consensus_event` from
`src/services/scabbard/libscabbard/src/store/scabbard_store/diesel/operations/add_consensus_event.rs`
(the SQLite implementation, lines 54-283), together with proofs of the
spec's claims about it.

The database state visible to the operation is modelled as lists of rows
(insertion order = commit order).  Diesel's `transaction` wrapper rolls the
connection back when the closure returns `Err`, so the public operation is
modelled as the body threaded through an explicit state, with the error
path restoring the initial state.

Service identifiers (`FullyQualifiedServiceId`) enter the store only
through `format!("{}", service_id)`, so they are modelled by their
canonical string form.  Epochs are `u64` on the API and `i64` in the
database; they are modelled as `Nat` on the API and `Int` in rows, with
the `i64::try_from` range check made explicit.
-/

namespace Splinter

/-- Opaque byte payload (`Vec<u8>` in the source). -/
abbrev Bytes := List Nat

/-- Type `Scabbard2pcMessage` from
`crate::store::scabbard_store::two_phase::message`.  The variants and their
arities are exactly those matched in `add_consensus_event`; the first field
of each variant (an epoch) is never read by the writer. -/
inductive Scabbard2pcMessage where
  | voteRequest (epoch : Int) (value : Bytes)
  | voteResponse (epoch : Int) (vote : Bool)
  | commit (epoch : Int)
  | abort (epoch : Int)
  | decisionRequest (epoch : Int)
deriving DecidableEq

/-- Type `Scabbard2pcEvent` from
`crate::store::scabbard_store::two_phase::event`, as matched in
`add_consensus_event`. -/
inductive Scabbard2pcEvent where
  | alarm
  | deliver (receivingProcess : String) (message : Scabbard2pcMessage)
  | start (value : Bytes)
  | vote (vote : Bool)
deriving DecidableEq

/-- Type `ScabbardConsensusEvent`: the outer layer always wraps a
`Scabbard2pcEvent` (destructured by the irrefutable `let` at the top of
`add_consensus_event`). -/
inductive ScabbardConsensusEvent where
  | scabbard2pcConsensusEvent (event : Scabbard2pcEvent)
deriving DecidableEq

/-- Type `ScabbardStoreError`, restricted to the two variants produced by
`add_consensus_event`.  `Internal` wraps an opaque source error and is
modelled without a payload; `InvalidState` carries its human-readable
message. -/
inductive ScabbardStoreError where
  | internal
  | invalidState (message : String)
deriving DecidableEq

/-- Modelled from the spec: the on-disk discriminator for each event
variant, produced by `String::from(&event)` (§4.1: `ALARM`, `START`,
`VOTE`, `DELIVER`); the `From` impl itself is outside `src/`. -/
def eventTypeString : Scabbard2pcEvent → String
  | .alarm => "ALARM"
  | .deliver _ _ => "DELIVER"
  | .start _ => "START"
  | .vote _ => "VOTE"

/-- Modelled from the spec: the on-disk discriminator for each message
variant, produced by `String::from(&message)` (§4.1: `VOTE_REQUEST`,
`VOTE_RESPONSE`, `COMMIT`, `ABORT`, `DECISION_REQUEST`); the `From` impl
itself is outside `src/`. -/
def messageTypeString : Scabbard2pcMessage → String
  | .voteRequest _ _ => "VOTE_REQUEST"
  | .voteResponse _ _ => "VOTE_RESPONSE"
  | .commit _ => "COMMIT"
  | .abort _ => "ABORT"
  | .decisionRequest _ => "DECISION_REQUEST"

/-- A committed row of `two_pc_consensus_event`:
`(id PK, service_id, epoch, position, event_type, executed_at NULLABLE)`. -/
structure EventRow where
  id : Nat
  service_id : String
  epoch : Int
  position : Nat
  event_type : String
  executed_at : Option Int
deriving DecidableEq

/-- Model `InsertableTwoPcConsensusEventModel`: the header row as handed to the
insert (no `id`; the store assigns it). -/
structure InsertableTwoPcConsensusEventModel where
  service_id : String
  epoch : Int
  executed_at : Option Int
  position : Nat
  event_type : String
deriving DecidableEq

/-- Model `TwoPcConsensusDeliverEventModel`: a row of
`two_pc_consensus_deliver_event`. -/
structure TwoPcConsensusDeliverEventModel where
  event_id : Nat
  service_id : String
  epoch : Int
  receiver_service_id : String
  message_type : String
  vote_response : Option String
  vote_request : Option Bytes
deriving DecidableEq

/-- Model `TwoPcConsensusStartEventModel`: a row of
`two_pc_consensus_start_event`. -/
structure TwoPcConsensusStartEventModel where
  event_id : Nat
  service_id : String
  epoch : Int
  value : Bytes
deriving DecidableEq

/-- Model `TwoPcConsensusVoteEventModel`: a row of
`two_pc_consensus_vote_event`. -/
structure TwoPcConsensusVoteEventModel where
  event_id : Nat
  service_id : String
  epoch : Int
  vote : String
deriving DecidableEq

/-- The tables touched by `add_consensus_event`.  Context rows are looked
up purely for existence (`.is_some()`), so only their
`(service_id, epoch)` keys are modelled; their payload columns are never
read by the writer.  Lists are in insertion (commit) order. -/
structure DbState where
  coordinatorContexts : List (String × Int)
  participantContexts : List (String × Int)
  events : List EventRow
  deliverEvents : List TwoPcConsensusDeliverEventModel
  startEvents : List TwoPcConsensusStartEventModel
  voteEvents : List TwoPcConsensusVoteEventModel
deriving DecidableEq

/-- The query on `consensus_2pc_coordinator_context` filtered by
`epoch.eq(epoch).and(service_id.eq(...))`, taking `.first(...).optional()`. -/
def findCoordinatorContext (db : DbState) (service_id : String) (epoch : Int) :
    Option (String × Int) :=
  db.coordinatorContexts.find? (fun r => r.2 == epoch && r.1 == service_id)

/-- The query on `consensus_2pc_participant_context`, symmetric. -/
def findParticipantContext (db : DbState) (service_id : String) (epoch : Int) :
    Option (String × Int) :=
  db.participantContexts.find? (fun r => r.2 == epoch && r.1 == service_id)

/-- The position query: filter `two_pc_consensus_event` by
`(service_id, epoch)`, order by `position` descending, take the first,
`unwrap_or(0)` — i.e. the maximum existing position, defaulting to 0. -/
def maxPositionQuery (db : DbState) (service_id : String) (epoch : Int) : Nat :=
  ((db.events.filter (fun r => r.service_id == service_id && r.epoch == epoch)).map
    (fun r => r.position)).foldl max 0

/-- Largest `id` in `two_pc_consensus_event` (0 when empty). -/
def maxEventId (db : DbState) : Nat :=
  (db.events.map (fun r => r.id)).foldl max 0

/-- The `event_id` query issued right after the header insert: order
`two_pc_consensus_event` by `id` descending and take the first. -/
def selectMaxEventId (db : DbState) : Option Nat :=
  if db.events.isEmpty then none else some (maxEventId db)

/-- Insert into `two_pc_consensus_event`.  SQLite assigns the new rowid as
one greater than the largest rowid in use (rows are never deleted by this
store), modelled as `maxEventId db + 1`. -/
def insertEventRow (db : DbState) (m : InsertableTwoPcConsensusEventModel) : DbState :=
  { db with
    events := db.events ++
      [{ id := maxEventId db + 1, service_id := m.service_id, epoch := m.epoch,
         position := m.position, event_type := m.event_type,
         executed_at := m.executed_at }] }

/-- Insert into `two_pc_consensus_deliver_event`. -/
def insertDeliverRow (db : DbState) (m : TwoPcConsensusDeliverEventModel) : DbState :=
  { db with deliverEvents := db.deliverEvents ++ [m] }

/-- Insert into `two_pc_consensus_start_event`. -/
def insertStartRow (db : DbState) (m : TwoPcConsensusStartEventModel) : DbState :=
  { db with startEvents := db.startEvents ++ [m] }

/-- Insert into `two_pc_consensus_vote_event`. -/
def insertVoteRow (db : DbState) (m : TwoPcConsensusVoteEventModel) : DbState :=
  { db with voteEvents := db.voteEvents ++ [m] }

/-- Conversion `i64::try_from(epoch: u64)`: succeeds exactly when the value fits in a
signed 64-bit integer. -/
def i64TryFrom (n : Nat) : Option Int :=
  if n < 2 ^ 63 then some (Int.ofNat n) else none

/-- The `format!` string of the both-contexts error (source lines 100-107,
whitespace exact including the literal newline and indentation). -/
def bothContextsMessage (service_id : String) (epoch : Int) : String :=
  "Failed to add consensus event, contexts found for participant and \n                            coordinator with service_id: " ++
    service_id ++ " epoch: " ++ toString epoch ++ " "

/-- The `format!` string of the coordinator-branch illegal-message error
(source lines 139-146). -/
def invalidCoordinatorMessage (message_type : String) : String :=
  "Failed to add consensus deliver event, invalid coordinator \n                                        message type " ++
    message_type

/-- The `format!` string of the participant-branch illegal-message error
(source lines 221-229). -/
def invalidParticipantMessage (message_type : String) : String :=
  "Failed to add consensus deliver event, invalid participant \n                                        message type " ++
    message_type

/-- The `format!` string of the participant-branch illegal-event error
(source lines 262-271). -/
def invalidParticipantEventMessage (event_type : String) : String :=
  "Failed to add consensus event, invalid participant event \n                            type " ++
    event_type

/-- The `format!` string of the no-context error (source lines 272-280). -/
def noContextMessage (service_id : String) (epoch : Int) : String :=
  "Failed to add consensus event, a context with service_id: " ++ service_id ++
    " and epoch: " ++ toString epoch ++
    " \n                        does not exist"

/-- The body of the transaction closure of the SQLite
`add_consensus_event` (source lines 62-281), threading the database state
explicitly.  The error case carries the (dirty, uncommitted) state so that
the transaction wrapper can discard it.  The nested `if/else if/else` on
`coordinator_context.is_some()` / `participant_context.is_some()` is
rendered as a four-way match on the two options (whose contents the source
never uses). -/
def addConsensusEventBody (db : DbState) (service_id : String) (epochU : Nat)
    (cev : ScabbardConsensusEvent) :
    Except (ScabbardStoreError × DbState) (Nat × DbState) :=
  match cev with
  | .scabbard2pcConsensusEvent event =>
    match i64TryFrom epochU with
    | none => .error (.internal, db)
    | some epoch =>
      let coordinator_context := findCoordinatorContext db service_id epoch
      let participant_context := findParticipantContext db service_id epoch
      let position := maxPositionQuery db service_id epoch + 1
      match coordinator_context, participant_context with
      | some _, some _ =>
        .error (.invalidState (bothContextsMessage service_id epoch), db)
      | some _, none =>
        let db1 := insertEventRow db
          { service_id := service_id, epoch := epoch, executed_at := none,
            position := position, event_type := eventTypeString event }
        match selectMaxEventId db1 with
        | none => .error (.internal, db1)
        | some event_id =>
          match event with
          | .alarm => .ok (event_id, db1)
          | .deliver receiving_process message =>
            match message with
            | .decisionRequest e =>
              .ok (event_id, insertDeliverRow db1
                { event_id := event_id, service_id := service_id, epoch := epoch,
                  receiver_service_id := receiving_process,
                  message_type := messageTypeString (.decisionRequest e),
                  vote_response := none, vote_request := none })
            | .voteResponse e true =>
              .ok (event_id, insertDeliverRow db1
                { event_id := event_id, service_id := service_id, epoch := epoch,
                  receiver_service_id := receiving_process,
                  message_type := messageTypeString (.voteResponse e true),
                  vote_response := some "TRUE", vote_request := none })
            | .voteResponse e false =>
              .ok (event_id, insertDeliverRow db1
                { event_id := event_id, service_id := service_id, epoch := epoch,
                  receiver_service_id := receiving_process,
                  message_type := messageTypeString (.voteResponse e false),
                  vote_response := some "FALSE", vote_request := none })
            | m =>
              .error (.invalidState (invalidCoordinatorMessage (messageTypeString m)), db1)
          | .start value =>
            .ok (event_id, insertStartRow db1
              { event_id := event_id, service_id := service_id, epoch := epoch,
                value := value })
          | .vote v =>
            .ok (event_id, insertVoteRow db1
              { event_id := event_id, service_id := service_id, epoch := epoch,
                vote := if v then "TRUE" else "FALSE" })
      | none, some _ =>
        let db1 := insertEventRow db
          { service_id := service_id, epoch := epoch, executed_at := none,
            position := position, event_type := eventTypeString event }
        match selectMaxEventId db1 with
        | none => .error (.internal, db1)
        | some event_id =>
          match event with
          | .alarm => .ok (event_id, db1)
          | .deliver receiving_process message =>
            match message with
            | .decisionRequest e =>
              .ok (event_id, insertDeliverRow db1
                { event_id := event_id, service_id := service_id, epoch := epoch,
                  receiver_service_id := receiving_process,
                  message_type := messageTypeString (.decisionRequest e),
                  vote_response := none, vote_request := none })
            | .commit e =>
              .ok (event_id, insertDeliverRow db1
                { event_id := event_id, service_id := service_id, epoch := epoch,
                  receiver_service_id := receiving_process,
                  message_type := messageTypeString (.commit e),
                  vote_response := none, vote_request := none })
            | .abort e =>
              .ok (event_id, insertDeliverRow db1
                { event_id := event_id, service_id := service_id, epoch := epoch,
                  receiver_service_id := receiving_process,
                  message_type := messageTypeString (.abort e),
                  vote_response := none, vote_request := none })
            | .voteRequest e value =>
              .ok (event_id, insertDeliverRow db1
                { event_id := event_id, service_id := service_id, epoch := epoch,
                  receiver_service_id := receiving_process,
                  message_type := messageTypeString (.voteRequest e value),
                  vote_response := none, vote_request := some value })
            | m =>
              .error (.invalidState (invalidParticipantMessage (messageTypeString m)), db1)
          | .vote v =>
            .ok (event_id, insertVoteRow db1
              { event_id := event_id, service_id := service_id, epoch := epoch,
                vote := if v then "TRUE" else "FALSE" })
          | e =>
            .error (.invalidState (invalidParticipantEventMessage (eventTypeString e)), db1)
      | none, none =>
        .error (.invalidState (noContextMessage service_id epoch), db)

/-- The public operation: the body wrapped in `self.conn.transaction`,
which commits the final state on `Ok` and rolls back to the initial state
on `Err`. -/
def add_consensus_event (db : DbState) (service_id : String) (epoch : Nat)
    (event : ScabbardConsensusEvent) : Except ScabbardStoreError Nat × DbState :=
  match addConsensusEventBody db service_id epoch event with
  | .ok (event_id, db1) => (.ok event_id, db1)
  | .error (e, _) => (.error e, db)

/-! ## Observation functions over the state -/

/-- The positions of the header rows for one `(service_id, epoch)` pair,
in commit order. -/
def positionsFor (db : DbState) (service_id : String) (epoch : Int) : List Nat :=
  (db.events.filter (fun r => r.service_id == service_id && r.epoch == epoch)).map
    (fun r => r.position)

/-- Run a sequence of `add_consensus_event` calls on one
`(service_id, epoch)` pair, requiring every call to succeed. -/
def appendAll (db : DbState) (service_id : String) (epoch : Nat) :
    List ScabbardConsensusEvent → Option DbState
  | [] => some db
  | ev :: rest =>
    match add_consensus_event db service_id epoch ev with
    | (.ok _, db1) => appendAll db1 service_id epoch rest
    | (.error _, _) => none

/-- Run a sequence of `add_consensus_event` calls on arbitrary
`(service_id, epoch)` pairs, requiring every call to succeed. -/
def runScript : DbState → List (String × Nat × ScabbardConsensusEvent) → Option DbState
  | db, [] => some db
  | db, (sid, ep, ev) :: rest =>
    match add_consensus_event db sid ep ev with
    | (.ok _, db1) => runScript db1 rest
    | (.error _, _) => none

/-- Number of deliver detail rows joining a given `event_id`. -/
def deliverCount (db : DbState) (event_id : Nat) : Nat :=
  (db.deliverEvents.filter (fun d => d.event_id == event_id)).length

/-- Number of start detail rows joining a given `event_id`. -/
def startCount (db : DbState) (event_id : Nat) : Nat :=
  (db.startEvents.filter (fun d => d.event_id == event_id)).length

/-- Number of vote detail rows joining a given `event_id`. -/
def voteCount (db : DbState) (event_id : Nat) : Nat :=
  (db.voteEvents.filter (fun d => d.event_id == event_id)).length

/-- Total number of detail rows (of any kind) joining a given `event_id`. -/
def detailCount (db : DbState) (event_id : Nat) : Nat :=
  deliverCount db event_id + startCount db event_id + voteCount db event_id

/-- Substring predicate: `sub` occurs contiguously inside `s`. -/
def strContains (s sub : String) : Prop :=
  ∃ pre post : String, s = pre ++ sub ++ post

/-- A state whose event and detail tables are empty (contexts arbitrary):
the starting point of the event log. -/
def emptyLogDb (coordinatorContexts participantContexts : List (String × Int)) : DbState :=
  { coordinatorContexts := coordinatorContexts,
    participantContexts := participantContexts,
    events := [], deliverEvents := [], startEvents := [], voteEvents := [] }

/-- Does the `Except` side of the result hold an `InvalidState` error? -/
def isInvalidStateResult : Except ScabbardStoreError Nat → Bool
  | .error (.invalidState _) => true
  | _ => false

/-! ## Helper lemmas -/

theorem le_foldl_max (l : List Nat) (a : Nat) : a ≤ l.foldl max a := by
  induction l generalizing a with
  | nil => exact Nat.le_refl a
  | cons b t ih => exact Nat.le_trans (Nat.le_max_left a b) (ih (max a b))

theorem mem_le_foldl_max (l : List Nat) (a x : Nat) : x ∈ l → x ≤ l.foldl max a := by
  induction l generalizing a with
  | nil => intro hx; cases hx
  | cons b t ih =>
    intro hx
    rcases List.mem_cons.mp hx with rfl | hxt
    · exact Nat.le_trans (Nat.le_max_right a x) (le_foldl_max t (max a x))
    · exact ih (max a b) hxt

theorem foldl_max_concat (l : List Nat) (a x : Nat) :
    (l ++ [x]).foldl max a = max (l.foldl max a) x := by
  rw [List.foldl_append]
  rfl

theorem i64TryFrom_eq_some {n : Nat} {z : Int} (h : i64TryFrom n = some z) :
    n < 2 ^ 63 ∧ z = Int.ofNat n := by
  unfold i64TryFrom at h
  by_cases hn : n < 2 ^ 63
  · rw [if_pos hn] at h
    exact ⟨hn, (Option.some.injEq _ _ ▸ h).symm⟩
  · rw [if_neg hn] at h
    cases h

theorem maxEventId_insertEventRow (db : DbState)
    (m : InsertableTwoPcConsensusEventModel) :
    maxEventId (insertEventRow db m) = maxEventId db + 1 := by
  unfold maxEventId insertEventRow
  simp only [List.map_append, List.map_cons, List.map_nil]
  rw [foldl_max_concat]
  exact Nat.max_eq_right (Nat.le_succ _)

theorem selectMaxEventId_insertEventRow (db : DbState)
    (m : InsertableTwoPcConsensusEventModel) :
    selectMaxEventId (insertEventRow db m) = some (maxEventId db + 1) := by
  unfold selectMaxEventId
  rw [maxEventId_insertEventRow]
  have hne : (insertEventRow db m).events.isEmpty = false := by
    unfold insertEventRow
    simp
  rw [hne]
  rfl

theorem mem_events_id_le (db : DbState) (r : EventRow) (hr : r ∈ db.events) :
    r.id ≤ maxEventId db :=
  mem_le_foldl_max _ 0 r.id (List.mem_map_of_mem (fun r => r.id) hr)

/-- The header row that a successful append writes. -/
def newHeaderRow (db : DbState) (service_id : String) (epoch : Nat)
    (event : Scabbard2pcEvent) : EventRow :=
  { id := maxEventId db + 1, service_id := service_id, epoch := Int.ofNat epoch,
    position := maxPositionQuery db service_id (Int.ofNat epoch) + 1,
    event_type := eventTypeString event, executed_at := none }

/-- Master characterization of a successful `add_consensus_event` call:
the epoch was representable, the returned id is the freshly assigned
header-row id, the context tables are untouched, exactly one header row is
appended, and the detail tables change according to the event variant. -/
theorem add_ok_characterization (db : DbState) (sid : String) (ep : Nat)
    (cev : ScabbardConsensusEvent) (eid : Nat) (db' : DbState)
    (h : add_consensus_event db sid ep cev = (.ok eid, db')) :
    ep < 2 ^ 63 ∧
    eid = maxEventId db + 1 ∧
    db'.coordinatorContexts = db.coordinatorContexts ∧
    db'.participantContexts = db.participantContexts ∧
    ∃ event : Scabbard2pcEvent, cev = .scabbard2pcConsensusEvent event ∧
      db'.events = db.events ++ [newHeaderRow db sid ep event] ∧
      ((eventTypeString event = "ALARM" ∧
          db'.deliverEvents = db.deliverEvents ∧ db'.startEvents = db.startEvents ∧
          db'.voteEvents = db.voteEvents) ∨
       (eventTypeString event = "DELIVER" ∧
          (∃ drow : TwoPcConsensusDeliverEventModel, drow.event_id = eid ∧
            (drow.vote_response = none ∨ drow.vote_response = some "TRUE" ∨
              drow.vote_response = some "FALSE") ∧
            db'.deliverEvents = db.deliverEvents ++ [drow]) ∧
          db'.startEvents = db.startEvents ∧ db'.voteEvents = db.voteEvents) ∨
       (eventTypeString event = "START" ∧
          (∃ srow : TwoPcConsensusStartEventModel, srow.event_id = eid ∧
            db'.startEvents = db.startEvents ++ [srow]) ∧
          db'.deliverEvents = db.deliverEvents ∧ db'.voteEvents = db.voteEvents) ∨
       (eventTypeString event = "VOTE" ∧
          (∃ vrow : TwoPcConsensusVoteEventModel, vrow.event_id = eid ∧
            (vrow.vote = "TRUE" ∨ vrow.vote = "FALSE") ∧
            db'.voteEvents = db.voteEvents ++ [vrow]) ∧
          db'.deliverEvents = db.deliverEvents ∧ db'.startEvents = db.startEvents)) := by
  unfold add_consensus_event at h
  cases hb : addConsensusEventBody db sid ep cev with
  | error e =>
    rw [hb] at h
    cases h
  | ok p =>
    rw [hb] at h
    obtain ⟨pid, pdb⟩ := p
    simp only [Prod.mk.injEq, Except.ok.injEq] at h
    obtain ⟨rfl, rfl⟩ := h
    cases cev with
    | scabbard2pcConsensusEvent event =>
      cases hconv : i64TryFrom ep with
      | none =>
        simp only [addConsensusEventBody, hconv] at hb
        cases hb
      | some epi =>
        obtain ⟨hlt, rfl⟩ := i64TryFrom_eq_some hconv
        simp only [addConsensusEventBody, hconv] at hb
        cases hc : findCoordinatorContext db sid (Int.ofNat ep) with
        | some c =>
          cases hp : findParticipantContext db sid (Int.ofNat ep) with
          | some q =>
            simp only [hc, hp] at hb
            cases hb
          | none =>
            simp only [hc, hp, selectMaxEventId_insertEventRow] at hb
            cases event with
            | alarm =>
              simp only [Except.ok.injEq, Prod.mk.injEq] at hb
              obtain ⟨rfl, rfl⟩ := hb
              refine ⟨hlt, rfl, rfl, rfl, .alarm, rfl, rfl, Or.inl ⟨rfl, rfl, rfl, rfl⟩⟩
            | deliver recv msg =>
              cases msg with
              | decisionRequest e =>
                simp only [Except.ok.injEq, Prod.mk.injEq] at hb
                obtain ⟨rfl, rfl⟩ := hb
                exact ⟨hlt, rfl, rfl, rfl, .deliver recv (.decisionRequest e), rfl, rfl,
                  Or.inr (Or.inl ⟨rfl, ⟨_, rfl, Or.inl rfl, rfl⟩, rfl, rfl⟩)⟩
              | voteResponse e b =>
                cases b with
                | true =>
                  simp only [Except.ok.injEq, Prod.mk.injEq] at hb
                  obtain ⟨rfl, rfl⟩ := hb
                  exact ⟨hlt, rfl, rfl, rfl, .deliver recv (.voteResponse e true), rfl, rfl,
                    Or.inr (Or.inl ⟨rfl, ⟨_, rfl, Or.inr (Or.inl rfl), rfl⟩, rfl, rfl⟩)⟩
                | false =>
                  simp only [Except.ok.injEq, Prod.mk.injEq] at hb
                  obtain ⟨rfl, rfl⟩ := hb
                  exact ⟨hlt, rfl, rfl, rfl, .deliver recv (.voteResponse e false), rfl, rfl,
                    Or.inr (Or.inl ⟨rfl, ⟨_, rfl, Or.inr (Or.inr rfl), rfl⟩, rfl, rfl⟩)⟩
              | voteRequest e v => cases hb
              | commit e => cases hb
              | abort e => cases hb
            | start value =>
              simp only [Except.ok.injEq, Prod.mk.injEq] at hb
              obtain ⟨rfl, rfl⟩ := hb
              exact ⟨hlt, rfl, rfl, rfl, .start value, rfl, rfl,
                Or.inr (Or.inr (Or.inl ⟨rfl, ⟨_, rfl, rfl⟩, rfl, rfl⟩))⟩
            | vote v =>
              simp only [Except.ok.injEq, Prod.mk.injEq] at hb
              obtain ⟨rfl, rfl⟩ := hb
              refine ⟨hlt, rfl, rfl, rfl, .vote v, rfl, rfl,
                Or.inr (Or.inr (Or.inr ⟨rfl, ⟨_, rfl, ?_, rfl⟩, rfl, rfl⟩))⟩
              cases v with
              | true => exact Or.inl rfl
              | false => exact Or.inr rfl
        | none =>
          cases hp : findParticipantContext db sid (Int.ofNat ep) with
          | none =>
            simp only [hc, hp] at hb
            cases hb
          | some q =>
            simp only [hc, hp, selectMaxEventId_insertEventRow] at hb
            cases event with
            | alarm =>
              simp only [Except.ok.injEq, Prod.mk.injEq] at hb
              obtain ⟨rfl, rfl⟩ := hb
              refine ⟨hlt, rfl, rfl, rfl, .alarm, rfl, rfl, Or.inl ⟨rfl, rfl, rfl, rfl⟩⟩
            | deliver recv msg =>
              cases msg with
              | decisionRequest e =>
                simp only [Except.ok.injEq, Prod.mk.injEq] at hb
                obtain ⟨rfl, rfl⟩ := hb
                exact ⟨hlt, rfl, rfl, rfl, .deliver recv (.decisionRequest e), rfl, rfl,
                  Or.inr (Or.inl ⟨rfl, ⟨_, rfl, Or.inl rfl, rfl⟩, rfl, rfl⟩)⟩
              | commit e =>
                simp only [Except.ok.injEq, Prod.mk.injEq] at hb
                obtain ⟨rfl, rfl⟩ := hb
                exact ⟨hlt, rfl, rfl, rfl, .deliver recv (.commit e), rfl, rfl,
                  Or.inr (Or.inl ⟨rfl, ⟨_, rfl, Or.inl rfl, rfl⟩, rfl, rfl⟩)⟩
              | abort e =>
                simp only [Except.ok.injEq, Prod.mk.injEq] at hb
                obtain ⟨rfl, rfl⟩ := hb
                exact ⟨hlt, rfl, rfl, rfl, .deliver recv (.abort e), rfl, rfl,
                  Or.inr (Or.inl ⟨rfl, ⟨_, rfl, Or.inl rfl, rfl⟩, rfl, rfl⟩)⟩
              | voteRequest e value =>
                simp only [Except.ok.injEq, Prod.mk.injEq] at hb
                obtain ⟨rfl, rfl⟩ := hb
                exact ⟨hlt, rfl, rfl, rfl, .deliver recv (.voteRequest e value), rfl, rfl,
                  Or.inr (Or.inl ⟨rfl, ⟨_, rfl, Or.inl rfl, rfl⟩, rfl, rfl⟩)⟩
              | voteResponse e b => cases hb
            | vote v =>
              simp only [Except.ok.injEq, Prod.mk.injEq] at hb
              obtain ⟨rfl, rfl⟩ := hb
              refine ⟨hlt, rfl, rfl, rfl, .vote v, rfl, rfl,
                Or.inr (Or.inr (Or.inr ⟨rfl, ⟨_, rfl, ?_, rfl⟩, rfl, rfl⟩))⟩
              cases v with
              | true => exact Or.inl rfl
              | false => exact Or.inr rfl
            | start value => cases hb

theorem i64TryFrom_pos {n : Nat} (h : n < 2 ^ 63) : i64TryFrom n = some (Int.ofNat n) := by
  unfold i64TryFrom
  rw [if_pos h]

/-- Transaction rollback: whenever the operation reports an error, the
state handed back to the caller is the initial one. -/
theorem add_error_rollback (db : DbState) (sid : String) (ep : Nat)
    (cev : ScabbardConsensusEvent) (e : ScabbardStoreError) (s : DbState)
    (h : add_consensus_event db sid ep cev = (.error e, s)) : s = db := by
  unfold add_consensus_event at h
  cases hb : addConsensusEventBody db sid ep cev with
  | ok p =>
    obtain ⟨a, b⟩ := p
    rw [hb] at h
    simp at h
  | error q =>
    obtain ⟨e1, s1⟩ := q
    rw [hb] at h
    simp only [Prod.mk.injEq, Except.error.injEq] at h
    exact h.2.symm

/-- Behaviour under a double context: both lookups succeed, so the
transaction fails before any insert. -/
theorem add_both_contexts (db : DbState) (sid : String) (ep : Nat)
    (cev : ScabbardConsensusEvent) (hep : ep < 2 ^ 63)
    (hc : (findCoordinatorContext db sid (Int.ofNat ep)).isSome = true)
    (hp : (findParticipantContext db sid (Int.ofNat ep)).isSome = true) :
    add_consensus_event db sid ep cev
      = (.error (.invalidState (bothContextsMessage sid (Int.ofNat ep))), db) := by
  obtain ⟨c, hc'⟩ := Option.isSome_iff_exists.mp hc
  obtain ⟨q, hp'⟩ := Option.isSome_iff_exists.mp hp
  cases cev with
  | scabbard2pcConsensusEvent event =>
    unfold add_consensus_event
    simp only [addConsensusEventBody, i64TryFrom_pos hep, hc', hp']

/-- Behaviour with no context at a representable epoch: both lookups come
back empty and the transaction fails before any insert. -/
theorem add_no_context (db : DbState) (sid : String) (ep : Nat)
    (cev : ScabbardConsensusEvent) (hep : ep < 2 ^ 63)
    (hc : findCoordinatorContext db sid (Int.ofNat ep) = none)
    (hp : findParticipantContext db sid (Int.ofNat ep) = none) :
    add_consensus_event db sid ep cev
      = (.error (.invalidState (noContextMessage sid (Int.ofNat ep))), db) := by
  cases cev with
  | scabbard2pcConsensusEvent event =>
    unfold add_consensus_event
    simp only [addConsensusEventBody, i64TryFrom_pos hep, hc, hp]

theorem bothContextsMessage_names (sid : String) (ep : Int) :
    strContains (bothContextsMessage sid ep) "coordinator" ∧
    strContains (bothContextsMessage sid ep) "participant" ∧
    strContains (bothContextsMessage sid ep) sid ∧
    strContains (bothContextsMessage sid ep) (toString ep) := by
  refine ⟨⟨"Failed to add consensus event, contexts found for participant and \n                            ",
      " with service_id: " ++ sid ++ " epoch: " ++ toString ep ++ " ", ?_⟩,
    ⟨"Failed to add consensus event, contexts found for ",
      " and \n                            coordinator with service_id: " ++ sid ++ " epoch: " ++ toString ep ++ " ", ?_⟩,
    ⟨"Failed to add consensus event, contexts found for participant and \n                            coordinator with service_id: ",
      " epoch: " ++ toString ep ++ " ", ?_⟩,
    ⟨"Failed to add consensus event, contexts found for participant and \n                            coordinator with service_id: " ++ sid ++ " epoch: ",
      " ", ?_⟩⟩
  · unfold bothContextsMessage
    apply String.ext
    simp only [String.data_append]
    simp [List.append_assoc, List.cons_append]
  · unfold bothContextsMessage
    apply String.ext
    simp only [String.data_append]
    simp [List.append_assoc, List.cons_append]
  · unfold bothContextsMessage
    simp [String.append_assoc]
  · unfold bothContextsMessage
    simp [String.append_assoc]

/-! ## Claim theorems -/

/-- **C8** An epoch above `i64::MAX = 2^63 - 1` makes `add_consensus_event`
fail with `Internal` and leave the state untouched; any epoch at most
`2^63 - 1` converts successfully. -/
theorem C8_epoch_range :
    (∀ (db : DbState) (sid : String) (ep : Nat) (cev : ScabbardConsensusEvent),
      2 ^ 63 ≤ ep →
      add_consensus_event db sid ep cev = (.error .internal, db)) ∧
    (∀ ep : Nat, ep < 2 ^ 63 → i64TryFrom ep = some (Int.ofNat ep)) := by
  constructor
  · intro db sid ep cev hep
    have hconv : i64TryFrom ep = none := by
      unfold i64TryFrom
      rw [if_neg (Nat.not_lt.mpr hep)]
    cases cev with
    | scabbard2pcConsensusEvent event =>
      unfold add_consensus_event
      simp only [addConsensusEventBody, hconv]
  · intro ep hep
    exact i64TryFrom_pos hep

/-- Witness for C8 at `ep = 2^63` (first part) and `ep = 7` (second). -/
theorem C8_epoch_range_witness :
    (2 ^ 63 ≤ (2 ^ 63 : Nat) ∧
      add_consensus_event (emptyLogDb [] []) "svc-E::g" (2 ^ 63)
          (.scabbard2pcConsensusEvent .alarm)
        = (.error .internal, emptyLogDb [] [])) ∧
    ((7 : Nat) < 2 ^ 63 ∧ i64TryFrom 7 = some (Int.ofNat 7)) :=
  ⟨⟨Nat.le_refl _,
      C8_epoch_range.1 (emptyLogDb [] []) "svc-E::g" (2 ^ 63)
        (.scabbard2pcConsensusEvent .alarm) (Nat.le_refl _)⟩,
    ⟨by decide, C8_epoch_range.2 7 (by decide)⟩⟩

/-- **C2** When both a coordinator and a participant context row exist for
`(service_id, epoch)` (epoch representable as `i64`, as any stored epoch
is), every append fails with `InvalidState`; the message names both roles,
the service id and the epoch; and the state is unchanged (no rows
written). -/
theorem C2_role_exclusivity (db : DbState) (sid : String) (ep : Nat)
    (cev : ScabbardConsensusEvent) (hep : ep < 2 ^ 63)
    (hc : (findCoordinatorContext db sid (Int.ofNat ep)).isSome = true)
    (hp : (findParticipantContext db sid (Int.ofNat ep)).isSome = true) :
    add_consensus_event db sid ep cev
      = (.error (.invalidState (bothContextsMessage sid (Int.ofNat ep))), db) ∧
    strContains (bothContextsMessage sid (Int.ofNat ep)) "coordinator" ∧
    strContains (bothContextsMessage sid (Int.ofNat ep)) "participant" ∧
    strContains (bothContextsMessage sid (Int.ofNat ep)) sid ∧
    strContains (bothContextsMessage sid (Int.ofNat ep)) (toString (Int.ofNat ep)) :=
  ⟨add_both_contexts db sid ep cev hep hc hp, bothContextsMessage_names sid (Int.ofNat ep)⟩

/-- Witness for C2: scenario 4 of the spec (`svc-D::g`, epoch 9, `Alarm`). -/
theorem C2_role_exclusivity_witness :
    ((9 : Nat) < 2 ^ 63 ∧
      (findCoordinatorContext (emptyLogDb [("svc-D::g", 9)] [("svc-D::g", 9)]) "svc-D::g"
        (Int.ofNat 9)).isSome = true ∧
      (findParticipantContext (emptyLogDb [("svc-D::g", 9)] [("svc-D::g", 9)]) "svc-D::g"
        (Int.ofNat 9)).isSome = true) ∧
    add_consensus_event (emptyLogDb [("svc-D::g", 9)] [("svc-D::g", 9)]) "svc-D::g" 9
        (.scabbard2pcConsensusEvent .alarm)
      = (.error (.invalidState (bothContextsMessage "svc-D::g" (Int.ofNat 9))),
          emptyLogDb [("svc-D::g", 9)] [("svc-D::g", 9)]) :=
  ⟨⟨by decide, by decide, by decide⟩,
    (C2_role_exclusivity (emptyLogDb [("svc-D::g", 9)] [("svc-D::g", 9)]) "svc-D::g" 9
      (.scabbard2pcConsensusEvent .alarm) (by decide) (by decide) (by decide)).1⟩

/-- **C3, counterexample** At the unrepresentable epoch `2^63` no context
row exists for the pair, yet the append fails with `Internal` rather than
`InvalidState`: the claim as stated does not hold at such epochs. -/
theorem C3_counterexample :
    findCoordinatorContext (emptyLogDb [] []) "svc-E::g" (Int.ofNat (2 ^ 63)) = none ∧
    findParticipantContext (emptyLogDb [] []) "svc-E::g" (Int.ofNat (2 ^ 63)) = none ∧
    add_consensus_event (emptyLogDb [] []) "svc-E::g" (2 ^ 63)
        (.scabbard2pcConsensusEvent .alarm)
      = (.error .internal, emptyLogDb [] []) ∧
    isInvalidStateResult
      (add_consensus_event (emptyLogDb [] []) "svc-E::g" (2 ^ 63)
        (.scabbard2pcConsensusEvent .alarm)).1 = false :=
  ⟨rfl, rfl, rfl, rfl⟩

/-- **C3, amended** For every `(service_id, epoch)` with `epoch`
representable as `i64` (as the epoch of any stored row is) and no context
row of either role, every append fails with `InvalidState` ("a context …
does not exist") and the state is unchanged. -/
theorem C3_no_context (db : DbState) (sid : String) (ep : Nat)
    (cev : ScabbardConsensusEvent) (hep : ep < 2 ^ 63)
    (hc : findCoordinatorContext db sid (Int.ofNat ep) = none)
    (hp : findParticipantContext db sid (Int.ofNat ep) = none) :
    add_consensus_event db sid ep cev
      = (.error (.invalidState (noContextMessage sid (Int.ofNat ep))), db) :=
  add_no_context db sid ep cev hep hc hp

/-- Witness for C3: scenario 5 of the spec (`svc-E::g`, epoch 0, `Alarm`). -/
theorem C3_no_context_witness :
    ((0 : Nat) < 2 ^ 63 ∧
      findCoordinatorContext (emptyLogDb [] []) "svc-E::g" (Int.ofNat 0) = none ∧
      findParticipantContext (emptyLogDb [] []) "svc-E::g" (Int.ofNat 0) = none) ∧
    add_consensus_event (emptyLogDb [] []) "svc-E::g" 0
        (.scabbard2pcConsensusEvent .alarm)
      = (.error (.invalidState (noContextMessage "svc-E::g" (Int.ofNat 0))),
          emptyLogDb [] []) :=
  ⟨⟨by decide, rfl, rfl⟩,
    C3_no_context (emptyLogDb [] []) "svc-E::g" 0 (.scabbard2pcConsensusEvent .alarm)
      (by decide) rfl rfl⟩

/-- The messages rejected by the coordinator branch of the `Deliver` match
(everything except `DecisionRequest` and `VoteResponse`). -/
def isCoordinatorIllegalMessage : Scabbard2pcMessage → Bool
  | .commit _ => true
  | .abort _ => true
  | .voteRequest _ _ => true
  | _ => false

theorem add_participant_start_invalid (db : DbState) (sid : String) (ep : Nat)
    (v : Bytes) (hep : ep < 2 ^ 63)
    (hp : (findParticipantContext db sid (Int.ofNat ep)).isSome = true) :
    isInvalidStateResult
      (add_consensus_event db sid ep (.scabbard2pcConsensusEvent (.start v))).1 = true ∧
    (add_consensus_event db sid ep (.scabbard2pcConsensusEvent (.start v))).2 = db := by
  obtain ⟨q, hq⟩ := Option.isSome_iff_exists.mp hp
  cases hc : findCoordinatorContext db sid (Int.ofNat ep) with
  | some c =>
    rw [add_both_contexts db sid ep _ hep (by rw [hc]; rfl) hp]
    exact ⟨rfl, rfl⟩
  | none =>
    unfold add_consensus_event
    simp only [addConsensusEventBody, i64TryFrom_pos hep, hc, hq,
      selectMaxEventId_insertEventRow]
    constructor <;> trivial

theorem add_coordinator_illegal_message (db : DbState) (sid : String) (ep : Nat)
    (recv : String) (m : Scabbard2pcMessage) (hep : ep < 2 ^ 63)
    (hc : (findCoordinatorContext db sid (Int.ofNat ep)).isSome = true)
    (hm : isCoordinatorIllegalMessage m = true) :
    isInvalidStateResult
      (add_consensus_event db sid ep
        (.scabbard2pcConsensusEvent (.deliver recv m))).1 = true ∧
    (add_consensus_event db sid ep (.scabbard2pcConsensusEvent (.deliver recv m))).2 = db := by
  obtain ⟨c, hc'⟩ := Option.isSome_iff_exists.mp hc
  cases hp : findParticipantContext db sid (Int.ofNat ep) with
  | some q =>
    rw [add_both_contexts db sid ep _ hep hc (by rw [hp]; rfl)]
    exact ⟨rfl, rfl⟩
  | none =>
    unfold add_consensus_event
    cases m with
    | commit e =>
      simp only [addConsensusEventBody, i64TryFrom_pos hep, hc', hp,
        selectMaxEventId_insertEventRow]
      constructor <;> trivial
    | abort e =>
      simp only [addConsensusEventBody, i64TryFrom_pos hep, hc', hp,
        selectMaxEventId_insertEventRow]
      constructor <;> trivial
    | voteRequest e value =>
      simp only [addConsensusEventBody, i64TryFrom_pos hep, hc', hp,
        selectMaxEventId_insertEventRow]
      constructor <;> trivial
    | voteResponse e b => cases hm
    | decisionRequest e => cases hm

theorem add_participant_voteResponse_invalid (db : DbState) (sid : String) (ep : Nat)
    (recv : String) (e : Int) (b : Bool) (hep : ep < 2 ^ 63)
    (hp : (findParticipantContext db sid (Int.ofNat ep)).isSome = true) :
    isInvalidStateResult
      (add_consensus_event db sid ep
        (.scabbard2pcConsensusEvent (.deliver recv (.voteResponse e b)))).1 = true ∧
    (add_consensus_event db sid ep
      (.scabbard2pcConsensusEvent (.deliver recv (.voteResponse e b)))).2 = db := by
  obtain ⟨q, hq⟩ := Option.isSome_iff_exists.mp hp
  cases hc : findCoordinatorContext db sid (Int.ofNat ep) with
  | some c =>
    rw [add_both_contexts db sid ep _ hep (by rw [hc]; rfl) hp]
    exact ⟨rfl, rfl⟩
  | none =>
    unfold add_consensus_event
    simp only [addConsensusEventBody, i64TryFrom_pos hep, hc, hq,
      selectMaxEventId_insertEventRow]
    constructor <;> trivial

/-- **C4** Role legality: under a participant context `Start(_)` is
rejected with `InvalidState` and the state is unchanged; under a
coordinator context `Deliver(_, Commit)`, `Deliver(_, Abort)` and
`Deliver(_, VoteRequest(_))` are rejected likewise; under a participant
context `Deliver(_, VoteResponse(_))` is rejected likewise.  (Epochs are
restricted to the `i64` range, as the epoch of any stored context row
is.) -/
theorem C4_role_legality :
    (∀ (db : DbState) (sid : String) (ep : Nat) (v : Bytes),
      ep < 2 ^ 63 →
      (findParticipantContext db sid (Int.ofNat ep)).isSome = true →
      isInvalidStateResult
        (add_consensus_event db sid ep (.scabbard2pcConsensusEvent (.start v))).1 = true ∧
      (add_consensus_event db sid ep (.scabbard2pcConsensusEvent (.start v))).2 = db) ∧
    (∀ (db : DbState) (sid : String) (ep : Nat) (recv : String) (m : Scabbard2pcMessage),
      ep < 2 ^ 63 →
      (findCoordinatorContext db sid (Int.ofNat ep)).isSome = true →
      isCoordinatorIllegalMessage m = true →
      isInvalidStateResult
        (add_consensus_event db sid ep
          (.scabbard2pcConsensusEvent (.deliver recv m))).1 = true ∧
      (add_consensus_event db sid ep
        (.scabbard2pcConsensusEvent (.deliver recv m))).2 = db) ∧
    (∀ (db : DbState) (sid : String) (ep : Nat) (recv : String) (e : Int) (b : Bool),
      ep < 2 ^ 63 →
      (findParticipantContext db sid (Int.ofNat ep)).isSome = true →
      isInvalidStateResult
        (add_consensus_event db sid ep
          (.scabbard2pcConsensusEvent (.deliver recv (.voteResponse e b)))).1 = true ∧
      (add_consensus_event db sid ep
        (.scabbard2pcConsensusEvent (.deliver recv (.voteResponse e b)))).2 = db) :=
  ⟨fun db sid ep v hep hp => add_participant_start_invalid db sid ep v hep hp,
   fun db sid ep recv m hep hc hm =>
     add_coordinator_illegal_message db sid ep recv m hep hc hm,
   fun db sid ep recv e b hep hp =>
     add_participant_voteResponse_invalid db sid ep recv e b hep hp⟩

/-- Witness for C4: scenario 3 of the spec (participant `svc-C::g`, epoch
3, `Start`), a coordinator receiving `Commit`, and a participant receiving
`VoteResponse`. -/
theorem C4_role_legality_witness :
    ((3 : Nat) < 2 ^ 63 ∧
      (findParticipantContext (emptyLogDb [] [("svc-C::g", 3)]) "svc-C::g"
        (Int.ofNat 3)).isSome = true ∧
      isInvalidStateResult
        (add_consensus_event (emptyLogDb [] [("svc-C::g", 3)]) "svc-C::g" 3
          (.scabbard2pcConsensusEvent (.start []))).1 = true) ∧
    ((findCoordinatorContext (emptyLogDb [("c::x", 1)] []) "c::x"
        (Int.ofNat 1)).isSome = true ∧
      isCoordinatorIllegalMessage (.commit 1) = true ∧
      isInvalidStateResult
        (add_consensus_event (emptyLogDb [("c::x", 1)] []) "c::x" 1
          (.scabbard2pcConsensusEvent (.deliver "p::x" (.commit 1)))).1 = true) ∧
    ((findParticipantContext (emptyLogDb [] [("p::x", 1)]) "p::x"
        (Int.ofNat 1)).isSome = true ∧
      isInvalidStateResult
        (add_consensus_event (emptyLogDb [] [("p::x", 1)]) "p::x" 1
          (.scabbard2pcConsensusEvent (.deliver "c::x" (.voteResponse 1 false)))).1 = true) :=
  ⟨⟨by decide, by decide,
      (C4_role_legality.1 (emptyLogDb [] [("svc-C::g", 3)]) "svc-C::g" 3 []
        (by decide) (by decide)).1⟩,
    ⟨by decide, by decide,
      (C4_role_legality.2.1 (emptyLogDb [("c::x", 1)] []) "c::x" 1 "p::x" (.commit 1)
        (by decide) (by decide) (by decide)).1⟩,
    ⟨by decide,
      (C4_role_legality.2.2 (emptyLogDb [] [("p::x", 1)]) "p::x" 1 "c::x" 1 false
        (by decide) (by decide)).1⟩⟩

theorem maxPositionQuery_eq_foldl (db : DbState) (sid : String) (e : Int) :
    maxPositionQuery db sid e = (positionsFor db sid e).foldl max 0 := rfl

theorem positionsFor_add_ok (db : DbState) (sid : String) (ep : Nat)
    (cev : ScabbardConsensusEvent) (eid : Nat) (db' : DbState)
    (h : add_consensus_event db sid ep cev = (.ok eid, db')) :
    positionsFor db' sid (Int.ofNat ep)
      = positionsFor db sid (Int.ofNat ep)
          ++ [maxPositionQuery db sid (Int.ofNat ep) + 1] := by
  obtain ⟨-, -, -, -, event, -, hev, -⟩ := add_ok_characterization db sid ep cev eid db' h
  unfold positionsFor
  rw [hev]
  simp [newHeaderRow, List.filter_append]

theorem maxPositionQuery_add_ok (db : DbState) (sid : String) (ep : Nat)
    (cev : ScabbardConsensusEvent) (eid : Nat) (db' : DbState)
    (h : add_consensus_event db sid ep cev = (.ok eid, db')) :
    maxPositionQuery db' sid (Int.ofNat ep)
      = maxPositionQuery db sid (Int.ofNat ep) + 1 := by
  rw [maxPositionQuery_eq_foldl, positionsFor_add_ok db sid ep cev eid db' h,
    foldl_max_concat, ← maxPositionQuery_eq_foldl]
  exact Nat.max_eq_right (Nat.le_succ _)

theorem appendAll_positions (sid : String) (ep : Nat)
    (evs : List ScabbardConsensusEvent) :
    ∀ (db db' : DbState) (k : Nat),
      positionsFor db sid (Int.ofNat ep) = List.range' 1 k →
      maxPositionQuery db sid (Int.ofNat ep) = k →
      appendAll db sid ep evs = some db' →
      positionsFor db' sid (Int.ofNat ep) = List.range' 1 (k + evs.length) := by
  induction evs with
  | nil =>
    intro db db' k h1 h2 h3
    unfold appendAll at h3
    obtain rfl : db = db' := by simpa using h3
    simpa using h1
  | cons ev rest ih =>
    intro db db' k h1 h2 h3
    unfold appendAll at h3
    cases hadd : add_consensus_event db sid ep ev with
    | mk r s =>
      rw [hadd] at h3
      cases r with
      | error e => simp at h3
      | ok a =>
        have h1' : positionsFor s sid (Int.ofNat ep) = List.range' 1 (k + 1) := by
          rw [positionsFor_add_ok db sid ep ev a s hadd, h1, h2, List.range'_concat]
          simp [Nat.add_comm]
        have h2' : maxPositionQuery s sid (Int.ofNat ep) = k + 1 := by
          rw [maxPositionQuery_add_ok db sid ep ev a s hadd, h2]
        have hres := ih s db' (k + 1) h1' h2' h3
        rw [show k + (ev :: rest).length = k + 1 + rest.length from by
          simp only [List.length_cons]
          omega]
        exact hres

/-- **C1** Position sequencing: every successful append writes position
`max existing position + 1` (1 when the pair has no events), and a run of
`n` successful appends starting from a log holding no events for the pair
leaves exactly the positions `1, 2, …, n` in commit order. -/
theorem C1_position_sequence :
    (∀ (db : DbState) (sid : String) (ep : Nat) (cev : ScabbardConsensusEvent)
        (eid : Nat) (db' : DbState),
      add_consensus_event db sid ep cev = (.ok eid, db') →
      positionsFor db' sid (Int.ofNat ep)
        = positionsFor db sid (Int.ofNat ep)
            ++ [maxPositionQuery db sid (Int.ofNat ep) + 1]) ∧
    (∀ (db : DbState) (sid : String) (ep : Nat)
        (evs : List ScabbardConsensusEvent) (db' : DbState),
      positionsFor db sid (Int.ofNat ep) = [] →
      appendAll db sid ep evs = some db' →
      positionsFor db' sid (Int.ofNat ep) = List.range' 1 evs.length) := by
  constructor
  · exact positionsFor_add_ok
  · intro db sid ep evs db' h0 hrun
    have h2 : maxPositionQuery db sid (Int.ofNat ep) = 0 := by
      rw [maxPositionQuery_eq_foldl, h0]
      rfl
    have h1 : positionsFor db sid (Int.ofNat ep) = List.range' 1 0 := by
      rw [h0]
      rfl
    simpa using appendAll_positions sid ep evs db db' 0 h1 h2 hrun

/-- Witness state for C1: the result of appending `Alarm` then
`Vote(true)` under a coordinator context for `("s::a", 7)`. -/
def c1WitnessDb : DbState :=
  { coordinatorContexts := [("s::a", 7)], participantContexts := [],
    events := [{ id := 1, service_id := "s::a", epoch := 7, position := 1,
                 event_type := "ALARM", executed_at := none },
               { id := 2, service_id := "s::a", epoch := 7, position := 2,
                 event_type := "VOTE", executed_at := none }],
    deliverEvents := [], startEvents := [],
    voteEvents := [{ event_id := 2, service_id := "s::a", epoch := 7, vote := "TRUE" }] }

/-- Witness for C1: two successful appends yield positions `[1, 2]`. -/
theorem C1_position_sequence_witness :
    (positionsFor (emptyLogDb [("s::a", 7)] []) "s::a" (Int.ofNat 7) = [] ∧
      appendAll (emptyLogDb [("s::a", 7)] []) "s::a" 7
          [.scabbard2pcConsensusEvent .alarm, .scabbard2pcConsensusEvent (.vote true)]
        = some c1WitnessDb) ∧
    positionsFor c1WitnessDb "s::a" (Int.ofNat 7) = List.range' 1 2 :=
  ⟨⟨rfl, rfl⟩,
    C1_position_sequence.2 (emptyLogDb [("s::a", 7)] []) "s::a" 7
      [.scabbard2pcConsensusEvent .alarm, .scabbard2pcConsensusEvent (.vote true)]
      c1WitnessDb rfl rfl⟩

theorem maxEventId_append_row (db db' : DbState) (r : EventRow)
    (h : db'.events = db.events ++ [r]) :
    maxEventId db' = max (maxEventId db) r.id := by
  unfold maxEventId
  rw [h]
  simp only [List.map_append, List.map_cons, List.map_nil]
  rw [foldl_max_concat]

theorem selectMaxEventId_append_row (db db' : DbState) (r : EventRow)
    (h : db'.events = db.events ++ [r]) :
    selectMaxEventId db' = some (max (maxEventId db) r.id) := by
  unfold selectMaxEventId
  have hne : db'.events.isEmpty = false := by
    rw [h]
    simp
  rw [hne, maxEventId_append_row db db' r h]
  rfl

/-- **C9** In the sequential model (no concurrent writers), a successful
append returns exactly the id of the header row it inserted, and that id
is what the post-insert `SELECT max(id)` query reports. -/
theorem C9_event_id (db : DbState) (sid : String) (ep : Nat)
    (cev : ScabbardConsensusEvent) (eid : Nat) (db' : DbState)
    (h : add_consensus_event db sid ep cev = (.ok eid, db')) :
    ∃ hrow : EventRow, db'.events = db.events ++ [hrow] ∧ eid = hrow.id ∧
      selectMaxEventId db' = some eid := by
  obtain ⟨-, hid, -, -, event, -, hev, -⟩ := add_ok_characterization db sid ep cev eid db' h
  refine ⟨newHeaderRow db sid ep event, hev, hid, ?_⟩
  rw [selectMaxEventId_append_row db db' _ hev, hid]
  have : max (maxEventId db) (newHeaderRow db sid ep event).id = maxEventId db + 1 :=
    Nat.max_eq_right (Nat.le_succ _)
  rw [this]

/-- Witness state for C9: one `Alarm` appended under a coordinator
context for `("s::a", 7)`. -/
def c9WitnessDb : DbState :=
  { coordinatorContexts := [("s::a", 7)], participantContexts := [],
    events := [{ id := 1, service_id := "s::a", epoch := 7, position := 1,
                 event_type := "ALARM", executed_at := none }],
    deliverEvents := [], startEvents := [], voteEvents := [] }

/-- Witness for C9: the first append returns `event_id = 1`, the id of
the row it wrote. -/
theorem C9_event_id_witness :
    add_consensus_event (emptyLogDb [("s::a", 7)] []) "s::a" 7
        (.scabbard2pcConsensusEvent .alarm) = (.ok 1, c9WitnessDb) ∧
    (∃ hrow : EventRow,
      c9WitnessDb.events = (emptyLogDb [("s::a", 7)] []).events ++ [hrow] ∧
      1 = hrow.id ∧ selectMaxEventId c9WitnessDb = some 1) :=
  ⟨rfl,
    C9_event_id (emptyLogDb [("s::a", 7)] []) "s::a" 7
      (.scabbard2pcConsensusEvent .alarm) 1 c9WitnessDb rfl⟩

/-- **C10** Frame condition: the context tables are never written; an
error leaves the whole state unchanged; a success appends exactly one
header row and at most one detail row (to exactly one detail table),
leaving every pre-existing row in every table intact. -/
theorem C10_frame (db : DbState) (sid : String) (ep : Nat)
    (cev : ScabbardConsensusEvent) :
    (add_consensus_event db sid ep cev).2.coordinatorContexts = db.coordinatorContexts ∧
    (add_consensus_event db sid ep cev).2.participantContexts = db.participantContexts ∧
    (∀ (e : ScabbardStoreError) (s : DbState),
      add_consensus_event db sid ep cev = (.error e, s) → s = db) ∧
    (∀ (eid : Nat) (db' : DbState),
      add_consensus_event db sid ep cev = (.ok eid, db') →
      ∃ hrow : EventRow, db'.events = db.events ++ [hrow] ∧
        ((db'.deliverEvents = db.deliverEvents ∧ db'.startEvents = db.startEvents ∧
            db'.voteEvents = db.voteEvents) ∨
         (∃ drow, db'.deliverEvents = db.deliverEvents ++ [drow] ∧
            db'.startEvents = db.startEvents ∧ db'.voteEvents = db.voteEvents) ∨
         (∃ srow, db'.startEvents = db.startEvents ++ [srow] ∧
            db'.deliverEvents = db.deliverEvents ∧ db'.voteEvents = db.voteEvents) ∨
         (∃ vrow, db'.voteEvents = db.voteEvents ++ [vrow] ∧
            db'.deliverEvents = db.deliverEvents ∧ db'.startEvents = db.startEvents))) := by
  refine ⟨?_, ?_, fun e s h => add_error_rollback db sid ep cev e s h, ?_⟩
  · cases hr : add_consensus_event db sid ep cev with
    | mk r s =>
      cases r with
      | error e => rw [add_error_rollback db sid ep cev e s hr]
      | ok a => exact (add_ok_characterization db sid ep cev a s hr).2.2.1
  · cases hr : add_consensus_event db sid ep cev with
    | mk r s =>
      cases r with
      | error e => rw [add_error_rollback db sid ep cev e s hr]
      | ok a => exact (add_ok_characterization db sid ep cev a s hr).2.2.2.1
  · intro eid db' h
    obtain ⟨-, -, -, -, event, -, hev, hdet⟩ :=
      add_ok_characterization db sid ep cev eid db' h
    refine ⟨newHeaderRow db sid ep event, hev, ?_⟩
    rcases hdet with ⟨-, hd, hs, hv⟩ | ⟨-, ⟨drow, -, -, hd⟩, hs, hv⟩ |
      ⟨-, ⟨srow, -, hs⟩, hd, hv⟩ | ⟨-, ⟨vrow, -, -, hv⟩, hd, hs⟩
    · exact Or.inl ⟨hd, hs, hv⟩
    · exact Or.inr (Or.inl ⟨drow, hd, hs, hv⟩)
    · exact Or.inr (Or.inr (Or.inl ⟨srow, hs, hd, hv⟩))
    · exact Or.inr (Or.inr (Or.inr ⟨vrow, hv, hd, hs⟩))

/-- Witness state for C10: one `Start` appended under a coordinator
context for `("s::a", 7)`. -/
def c10WitnessDb : DbState :=
  { coordinatorContexts := [("s::a", 7)], participantContexts := [],
    events := [{ id := 1, service_id := "s::a", epoch := 7, position := 1,
                 event_type := "START", executed_at := none }],
    deliverEvents := [],
    startEvents := [{ event_id := 1, service_id := "s::a", epoch := 7, value := [1, 2] }],
    voteEvents := [] }

/-- Witness for C10: a concrete successful `Start` append adds one header
row and one start detail row. -/
theorem C10_frame_witness :
    add_consensus_event (emptyLogDb [("s::a", 7)] []) "s::a" 7
        (.scabbard2pcConsensusEvent (.start [1, 2])) = (.ok 1, c10WitnessDb) ∧
    (∃ hrow : EventRow,
      c10WitnessDb.events = (emptyLogDb [("s::a", 7)] []).events ++ [hrow] ∧
      ((c10WitnessDb.deliverEvents = (emptyLogDb [("s::a", 7)] []).deliverEvents ∧
          c10WitnessDb.startEvents = (emptyLogDb [("s::a", 7)] []).startEvents ∧
          c10WitnessDb.voteEvents = (emptyLogDb [("s::a", 7)] []).voteEvents) ∨
       (∃ drow, c10WitnessDb.deliverEvents
            = (emptyLogDb [("s::a", 7)] []).deliverEvents ++ [drow] ∧
          c10WitnessDb.startEvents = (emptyLogDb [("s::a", 7)] []).startEvents ∧
          c10WitnessDb.voteEvents = (emptyLogDb [("s::a", 7)] []).voteEvents) ∨
       (∃ srow, c10WitnessDb.startEvents
            = (emptyLogDb [("s::a", 7)] []).startEvents ++ [srow] ∧
          c10WitnessDb.deliverEvents = (emptyLogDb [("s::a", 7)] []).deliverEvents ∧
          c10WitnessDb.voteEvents = (emptyLogDb [("s::a", 7)] []).voteEvents) ∨
       (∃ vrow, c10WitnessDb.voteEvents
            = (emptyLogDb [("s::a", 7)] []).voteEvents ++ [vrow] ∧
          c10WitnessDb.deliverEvents = (emptyLogDb [("s::a", 7)] []).deliverEvents ∧
          c10WitnessDb.startEvents = (emptyLogDb [("s::a", 7)] []).startEvents))) :=
  ⟨rfl,
    (C10_frame (emptyLogDb [("s::a", 7)] []) "s::a" 7
      (.scabbard2pcConsensusEvent (.start [1, 2]))).2.2.2 1 c10WitnessDb rfl⟩

/-- **C5** Atomicity: any error rolls the transaction back (state
unchanged, no id returned, no position consumed), and any success writes
the header row together with its detail row — one detail row (carrying the
returned `event_id`) for `Deliver`/`Start`/`Vote`, none for `Alarm` — in
the same step. -/
theorem C5_atomicity :
    (∀ (db : DbState) (sid : String) (ep : Nat) (cev : ScabbardConsensusEvent)
        (e : ScabbardStoreError) (s : DbState),
      add_consensus_event db sid ep cev = (.error e, s) → s = db) ∧
    (∀ (db : DbState) (sid : String) (ep : Nat) (cev : ScabbardConsensusEvent)
        (eid : Nat) (db' : DbState),
      add_consensus_event db sid ep cev = (.ok eid, db') →
      ∃ event : Scabbard2pcEvent, cev = .scabbard2pcConsensusEvent event ∧
        db'.events = db.events ++ [newHeaderRow db sid ep event] ∧
        ((eventTypeString event = "ALARM" ∧
            db'.deliverEvents = db.deliverEvents ∧ db'.startEvents = db.startEvents ∧
            db'.voteEvents = db.voteEvents) ∨
         (eventTypeString event ≠ "ALARM" ∧
           ((∃ drow, drow.event_id = eid ∧
               db'.deliverEvents = db.deliverEvents ++ [drow] ∧
               db'.startEvents = db.startEvents ∧ db'.voteEvents = db.voteEvents) ∨
            (∃ srow, srow.event_id = eid ∧
               db'.startEvents = db.startEvents ++ [srow] ∧
               db'.deliverEvents = db.deliverEvents ∧ db'.voteEvents = db.voteEvents) ∨
            (∃ vrow, vrow.event_id = eid ∧
               db'.voteEvents = db.voteEvents ++ [vrow] ∧
               db'.deliverEvents = db.deliverEvents ∧
               db'.startEvents = db.startEvents))))) := by
  refine ⟨fun db sid ep cev e s h => add_error_rollback db sid ep cev e s h, ?_⟩
  intro db sid ep cev eid db' h
  obtain ⟨-, -, -, -, event, hcev, hev, hdet⟩ :=
    add_ok_characterization db sid ep cev eid db' h
  refine ⟨event, hcev, hev, ?_⟩
  rcases hdet with ⟨hty, hd, hs, hv⟩ | ⟨hty, ⟨drow, hdid, -, hd⟩, hs, hv⟩ |
    ⟨hty, ⟨srow, hsid, hs⟩, hd, hv⟩ | ⟨hty, ⟨vrow, hvid, -, hv⟩, hd, hs⟩
  · exact Or.inl ⟨hty, hd, hs, hv⟩
  · exact Or.inr ⟨by rw [hty]; decide, Or.inl ⟨drow, hdid, hd, hs, hv⟩⟩
  · exact Or.inr ⟨by rw [hty]; decide, Or.inr (Or.inl ⟨srow, hsid, hs, hd, hv⟩)⟩
  · exact Or.inr ⟨by rw [hty]; decide, Or.inr (Or.inr ⟨vrow, hvid, hv, hd, hs⟩)⟩

/-- Witness state for C5: `Vote(false)` appended under a participant
context for `("svc-F::g", 1)` (spec scenario 6). -/
def c5WitnessDb : DbState :=
  { coordinatorContexts := [], participantContexts := [("svc-F::g", 1)],
    events := [{ id := 1, service_id := "svc-F::g", epoch := 1, position := 1,
                 event_type := "VOTE", executed_at := none }],
    deliverEvents := [], startEvents := [],
    voteEvents := [{ event_id := 1, service_id := "svc-F::g", epoch := 1,
                     vote := "FALSE" }] }

/-- Witness for C5: a failed append (no context) hands back the original
state, and a successful `Vote(false)` append writes the header and vote
rows together. -/
theorem C5_atomicity_witness :
    (add_consensus_event (emptyLogDb [] []) "x::y" 0 (.scabbard2pcConsensusEvent .alarm)
        = (.error (.invalidState (noContextMessage "x::y" (Int.ofNat 0))), emptyLogDb [] []) ∧
      emptyLogDb [] [] = emptyLogDb [] []) ∧
    (add_consensus_event (emptyLogDb [] [("svc-F::g", 1)]) "svc-F::g" 1
        (.scabbard2pcConsensusEvent (.vote false)) = (.ok 1, c5WitnessDb) ∧
      (∃ event : Scabbard2pcEvent,
        ScabbardConsensusEvent.scabbard2pcConsensusEvent (.vote false)
          = .scabbard2pcConsensusEvent event ∧
        c5WitnessDb.events
          = (emptyLogDb [] [("svc-F::g", 1)]).events
              ++ [newHeaderRow (emptyLogDb [] [("svc-F::g", 1)]) "svc-F::g" 1 event] ∧
        ((eventTypeString event = "ALARM" ∧
            c5WitnessDb.deliverEvents = (emptyLogDb [] [("svc-F::g", 1)]).deliverEvents ∧
            c5WitnessDb.startEvents = (emptyLogDb [] [("svc-F::g", 1)]).startEvents ∧
            c5WitnessDb.voteEvents = (emptyLogDb [] [("svc-F::g", 1)]).voteEvents) ∨
         (eventTypeString event ≠ "ALARM" ∧
           ((∃ drow, drow.event_id = 1 ∧
               c5WitnessDb.deliverEvents
                 = (emptyLogDb [] [("svc-F::g", 1)]).deliverEvents ++ [drow] ∧
               c5WitnessDb.startEvents = (emptyLogDb [] [("svc-F::g", 1)]).startEvents ∧
               c5WitnessDb.voteEvents = (emptyLogDb [] [("svc-F::g", 1)]).voteEvents) ∨
            (∃ srow, srow.event_id = 1 ∧
               c5WitnessDb.startEvents
                 = (emptyLogDb [] [("svc-F::g", 1)]).startEvents ++ [srow] ∧
               c5WitnessDb.deliverEvents = (emptyLogDb [] [("svc-F::g", 1)]).deliverEvents ∧
               c5WitnessDb.voteEvents = (emptyLogDb [] [("svc-F::g", 1)]).voteEvents) ∨
            (∃ vrow, vrow.event_id = 1 ∧
               c5WitnessDb.voteEvents
                 = (emptyLogDb [] [("svc-F::g", 1)]).voteEvents ++ [vrow] ∧
               c5WitnessDb.deliverEvents = (emptyLogDb [] [("svc-F::g", 1)]).deliverEvents ∧
               c5WitnessDb.startEvents = (emptyLogDb [] [("svc-F::g", 1)]).startEvents)))))) :=
  ⟨⟨rfl,
      C5_atomicity.1 (emptyLogDb [] []) "x::y" 0 (.scabbard2pcConsensusEvent .alarm)
        (.invalidState (noContextMessage "x::y" (Int.ofNat 0))) (emptyLogDb [] []) rfl⟩,
    ⟨rfl,
      C5_atomicity.2 (emptyLogDb [] [("svc-F::g", 1)]) "svc-F::g" 1
        (.scabbard2pcConsensusEvent (.vote false)) 1 c5WitnessDb rfl⟩⟩

/-! ## The detail-multiplicity invariant (C6) -/

theorem filter_beq_nil {α : Type} (f : α → Nat) (x : Nat) :
    ∀ l : List α, (∀ d ∈ l, f d ≠ x) → l.filter (fun d => f d == x) = [] := by
  intro l h
  induction l with
  | nil => rfl
  | cons a t ih =>
    rw [List.filter_cons]
    have ha : (f a == x) = false :=
      beq_eq_false_iff_ne.mpr (h a (List.mem_cons_self a t))
    simp only [ha, Bool.false_eq_true, if_false]
    exact ih fun d hd => h d (List.mem_cons_of_mem a hd)

theorem count_append_one {α : Type} (f : α → Nat) (l : List α) (d : α) (x : Nat) :
    ((l ++ [d]).filter (fun a => f a == x)).length
      = (l.filter (fun a => f a == x)).length
          + (if f d == x then 1 else 0) := by
  rw [List.filter_append, List.length_append]
  cases hd : (f d == x) with
  | true => simp [List.filter_cons, hd]
  | false => simp [List.filter_cons, hd]

theorem detailCount_stable (db db' : DbState) (x : Nat)
    (hd : db'.deliverEvents = db.deliverEvents)
    (hs : db'.startEvents = db.startEvents)
    (hv : db'.voteEvents = db.voteEvents) :
    detailCount db' x = detailCount db x := by
  unfold detailCount deliverCount startCount voteCount
  rw [hd, hs, hv]

theorem detailCount_after_deliver (db db' : DbState)
    (drow : TwoPcConsensusDeliverEventModel) (x : Nat)
    (hd : db'.deliverEvents = db.deliverEvents ++ [drow])
    (hs : db'.startEvents = db.startEvents)
    (hv : db'.voteEvents = db.voteEvents) :
    detailCount db' x
      = detailCount db x + (if drow.event_id == x then 1 else 0) := by
  unfold detailCount deliverCount startCount voteCount
  rw [hd, hs, hv, count_append_one]
  omega

theorem detailCount_after_start (db db' : DbState)
    (srow : TwoPcConsensusStartEventModel) (x : Nat)
    (hs : db'.startEvents = db.startEvents ++ [srow])
    (hd : db'.deliverEvents = db.deliverEvents)
    (hv : db'.voteEvents = db.voteEvents) :
    detailCount db' x
      = detailCount db x + (if srow.event_id == x then 1 else 0) := by
  unfold detailCount deliverCount startCount voteCount
  rw [hd, hs, hv, count_append_one]
  omega

theorem detailCount_after_vote (db db' : DbState)
    (vrow : TwoPcConsensusVoteEventModel) (x : Nat)
    (hv : db'.voteEvents = db.voteEvents ++ [vrow])
    (hd : db'.deliverEvents = db.deliverEvents)
    (hs : db'.startEvents = db.startEvents) :
    detailCount db' x
      = detailCount db x + (if vrow.event_id == x then 1 else 0) := by
  unfold detailCount deliverCount startCount voteCount
  rw [hd, hs, hv, count_append_one]
  omega

/-- The inductive invariant behind C6: every committed event has exactly
the detail rows its variant requires, and every detail row refers to an
already-assigned event id. -/
def DetailInv (db : DbState) : Prop :=
  (∀ r ∈ db.events,
    (r.event_type = "ALARM" → detailCount db r.id = 0) ∧
    ((r.event_type = "DELIVER" ∨ r.event_type = "START" ∨ r.event_type = "VOTE") →
      detailCount db r.id = 1)) ∧
  (∀ d ∈ db.deliverEvents, d.event_id ≤ maxEventId db) ∧
  (∀ s ∈ db.startEvents, s.event_id ≤ maxEventId db) ∧
  (∀ v ∈ db.voteEvents, v.event_id ≤ maxEventId db)

theorem detailCount_fresh_zero (db : DbState) (x : Nat)
    (hbd : ∀ d ∈ db.deliverEvents, d.event_id ≤ maxEventId db)
    (hbs : ∀ s ∈ db.startEvents, s.event_id ≤ maxEventId db)
    (hbv : ∀ v ∈ db.voteEvents, v.event_id ≤ maxEventId db)
    (hx : maxEventId db < x) : detailCount db x = 0 := by
  unfold detailCount deliverCount startCount voteCount
  rw [filter_beq_nil _ _ _ fun d hd => by have := hbd d hd; omega,
    filter_beq_nil _ _ _ fun d hd => by have := hbs d hd; omega,
    filter_beq_nil _ _ _ fun d hd => by have := hbv d hd; omega]
  rfl

theorem DetailInv_add_ok (db : DbState) (sid : String) (ep : Nat)
    (cev : ScabbardConsensusEvent) (eid : Nat) (db' : DbState)
    (inv : DetailInv db)
    (h : add_consensus_event db sid ep cev = (.ok eid, db')) : DetailInv db' := by
  obtain ⟨-, hid, -, -, event, -, hev, hdet⟩ :=
    add_ok_characterization db sid ep cev eid db' h
  obtain ⟨invE, invD, invS, invV⟩ := inv
  have hmax : maxEventId db' = maxEventId db + 1 := by
    rw [maxEventId_append_row db db' _ hev]
    exact Nat.max_eq_right (Nat.le_succ _)
  have hzero : detailCount db (maxEventId db + 1) = 0 :=
    detailCount_fresh_zero db _ invD invS invV (Nat.lt_succ_self _)
  subst hid
  rcases hdet with ⟨hty, hd, hs, hv⟩ | ⟨hty, ⟨drow, hdid, -, hd⟩, hs, hv⟩ |
    ⟨hty, ⟨srow, hsid, hs⟩, hd, hv⟩ | ⟨hty, ⟨vrow, hvid, -, hv⟩, hd, hs⟩
  · -- Alarm: no detail row written
    refine ⟨?_, ?_, ?_, ?_⟩
    · intro r hr
      rw [hev] at hr
      rcases List.mem_append.mp hr with hrold | hrnew
      · have hcnt : detailCount db' r.id = detailCount db r.id :=
          detailCount_stable db db' r.id hd hs hv
        exact ⟨fun ht => by rw [hcnt]; exact (invE r hrold).1 ht,
          fun ht => by rw [hcnt]; exact (invE r hrold).2 ht⟩
      · have hrw : r = newHeaderRow db sid ep event := by simpa using hrnew
        subst hrw
        refine ⟨fun _ => ?_, fun hor => ?_⟩
        · rw [detailCount_stable db db' _ hd hs hv]
          exact hzero
        · rw [show (newHeaderRow db sid ep event).event_type = "ALARM" from hty] at hor
          rcases hor with hbad | hbad | hbad <;> exact absurd hbad (by decide)
    · intro d hmem
      rw [hd] at hmem
      rw [hmax]
      exact Nat.le_succ_of_le (invD d hmem)
    · intro s hmem
      rw [hs] at hmem
      rw [hmax]
      exact Nat.le_succ_of_le (invS s hmem)
    · intro v hmem
      rw [hv] at hmem
      rw [hmax]
      exact Nat.le_succ_of_le (invV v hmem)
  · -- Deliver: exactly one deliver detail row
    refine ⟨?_, ?_, ?_, ?_⟩
    · intro r hr
      rw [hev] at hr
      rcases List.mem_append.mp hr with hrold | hrnew
      · have hne : (drow.event_id == r.id) = false := by
          have hle := mem_events_id_le db r hrold
          exact beq_eq_false_iff_ne.mpr (by omega)
        have hcnt : detailCount db' r.id = detailCount db r.id := by
          rw [detailCount_after_deliver db db' drow r.id hd hs hv, hne]
          simp
        exact ⟨fun ht => by rw [hcnt]; exact (invE r hrold).1 ht,
          fun ht => by rw [hcnt]; exact (invE r hrold).2 ht⟩
      · have hrw : r = newHeaderRow db sid ep event := by simpa using hrnew
        subst hrw
        refine ⟨fun ht => ?_, fun _ => ?_⟩
        · rw [show (newHeaderRow db sid ep event).event_type = "DELIVER" from hty] at ht
          exact absurd ht (by decide)
        · have hyes : (drow.event_id == (newHeaderRow db sid ep event).id) = true := by
            rw [hdid]
            exact beq_self_eq_true _
          rw [detailCount_after_deliver db db' drow _ hd hs hv, hyes]
          rw [show (newHeaderRow db sid ep event).id = maxEventId db + 1 from rfl, hzero]
          simp
    · intro d hmem
      rw [hd] at hmem
      rw [hmax]
      rcases List.mem_append.mp hmem with hmo | hmn
      · exact Nat.le_succ_of_le (invD d hmo)
      · have : d = drow := by simpa using hmn
        subst this
        rw [hdid]
    · intro s hmem
      rw [hs] at hmem
      rw [hmax]
      exact Nat.le_succ_of_le (invS s hmem)
    · intro v hmem
      rw [hv] at hmem
      rw [hmax]
      exact Nat.le_succ_of_le (invV v hmem)
  · -- Start: exactly one start detail row
    refine ⟨?_, ?_, ?_, ?_⟩
    · intro r hr
      rw [hev] at hr
      rcases List.mem_append.mp hr with hrold | hrnew
      · have hne : (srow.event_id == r.id) = false := by
          have hle := mem_events_id_le db r hrold
          exact beq_eq_false_iff_ne.mpr (by omega)
        have hcnt : detailCount db' r.id = detailCount db r.id := by
          rw [detailCount_after_start db db' srow r.id hs hd hv, hne]
          simp
        exact ⟨fun ht => by rw [hcnt]; exact (invE r hrold).1 ht,
          fun ht => by rw [hcnt]; exact (invE r hrold).2 ht⟩
      · have hrw : r = newHeaderRow db sid ep event := by simpa using hrnew
        subst hrw
        refine ⟨fun ht => ?_, fun _ => ?_⟩
        · rw [show (newHeaderRow db sid ep event).event_type = "START" from hty] at ht
          exact absurd ht (by decide)
        · have hyes : (srow.event_id == (newHeaderRow db sid ep event).id) = true := by
            rw [hsid]
            exact beq_self_eq_true _
          rw [detailCount_after_start db db' srow _ hs hd hv, hyes]
          rw [show (newHeaderRow db sid ep event).id = maxEventId db + 1 from rfl, hzero]
          simp
    · intro d hmem
      rw [hd] at hmem
      rw [hmax]
      exact Nat.le_succ_of_le (invD d hmem)
    · intro s hmem
      rw [hs] at hmem
      rw [hmax]
      rcases List.mem_append.mp hmem with hmo | hmn
      · exact Nat.le_succ_of_le (invS s hmo)
      · have : s = srow := by simpa using hmn
        subst this
        rw [hsid]
    · intro v hmem
      rw [hv] at hmem
      rw [hmax]
      exact Nat.le_succ_of_le (invV v hmem)
  · -- Vote: exactly one vote detail row
    refine ⟨?_, ?_, ?_, ?_⟩
    · intro r hr
      rw [hev] at hr
      rcases List.mem_append.mp hr with hrold | hrnew
      · have hne : (vrow.event_id == r.id) = false := by
          have hle := mem_events_id_le db r hrold
          exact beq_eq_false_iff_ne.mpr (by omega)
        have hcnt : detailCount db' r.id = detailCount db r.id := by
          rw [detailCount_after_vote db db' vrow r.id hv hd hs, hne]
          simp
        exact ⟨fun ht => by rw [hcnt]; exact (invE r hrold).1 ht,
          fun ht => by rw [hcnt]; exact (invE r hrold).2 ht⟩
      · have hrw : r = newHeaderRow db sid ep event := by simpa using hrnew
        subst hrw
        refine ⟨fun ht => ?_, fun _ => ?_⟩
        · rw [show (newHeaderRow db sid ep event).event_type = "VOTE" from hty] at ht
          exact absurd ht (by decide)
        · have hyes : (vrow.event_id == (newHeaderRow db sid ep event).id) = true := by
            rw [hvid]
            exact beq_self_eq_true _
          rw [detailCount_after_vote db db' vrow _ hv hd hs, hyes]
          rw [show (newHeaderRow db sid ep event).id = maxEventId db + 1 from rfl, hzero]
          simp
    · intro d hmem
      rw [hd] at hmem
      rw [hmax]
      exact Nat.le_succ_of_le (invD d hmem)
    · intro s hmem
      rw [hs] at hmem
      rw [hmax]
      exact Nat.le_succ_of_le (invS s hmem)
    · intro v hmem
      rw [hv] at hmem
      rw [hmax]
      rcases List.mem_append.mp hmem with hmo | hmn
      · exact Nat.le_succ_of_le (invV v hmo)
      · have : v = vrow := by simpa using hmn
        subst this
        rw [hvid]

theorem runScript_detailInv :
    ∀ (script : List (String × Nat × ScabbardConsensusEvent)) (db db' : DbState),
      DetailInv db → runScript db script = some db' → DetailInv db' := by
  intro script
  induction script with
  | nil =>
    intro db db' hinv h
    unfold runScript at h
    obtain rfl : db = db' := by simpa using h
    exact hinv
  | cons step rest ih =>
    intro db db' hinv h
    obtain ⟨sid, ep, ev⟩ := step
    unfold runScript at h
    cases hadd : add_consensus_event db sid ep ev with
    | mk r s =>
      rw [hadd] at h
      cases r with
      | error e => simp at h
      | ok a => exact ih s db' (DetailInv_add_ok db sid ep ev a s hinv hadd) h

/-- **C6** After any sequence of successful appends starting from an
empty event log (contexts arbitrary), every committed event of type
`DELIVER`, `START` or `VOTE` has exactly one detail row joining its
`event_id`, and every `ALARM` event has none. -/
theorem C6_detail_multiplicity (cctx pctx : List (String × Int))
    (script : List (String × Nat × ScabbardConsensusEvent)) (db' : DbState)
    (h : runScript (emptyLogDb cctx pctx) script = some db') :
    ∀ r ∈ db'.events,
      (r.event_type = "ALARM" → detailCount db' r.id = 0) ∧
      ((r.event_type = "DELIVER" ∨ r.event_type = "START" ∨ r.event_type = "VOTE") →
        detailCount db' r.id = 1) := by
  have h0 : DetailInv (emptyLogDb cctx pctx) := by
    refine ⟨?_, ?_, ?_, ?_⟩ <;> intro d hd <;> cases hd
  exact (runScript_detailInv script _ db' h0 h).1

/-- Witness state for C6: an `Alarm` and a `Vote(true)` appended for
`("s::a", 7)` under a coordinator context. -/
def c6WitnessDb : DbState :=
  { coordinatorContexts := [("s::a", 7)], participantContexts := [],
    events := [{ id := 1, service_id := "s::a", epoch := 7, position := 1,
                 event_type := "ALARM", executed_at := none },
               { id := 2, service_id := "s::a", epoch := 7, position := 2,
                 event_type := "VOTE", executed_at := none }],
    deliverEvents := [], startEvents := [],
    voteEvents := [{ event_id := 2, service_id := "s::a", epoch := 7, vote := "TRUE" }] }

/-- Witness for C6 on a two-event script. -/
theorem C6_detail_multiplicity_witness :
    runScript (emptyLogDb [("s::a", 7)] [])
        [("s::a", 7, .scabbard2pcConsensusEvent .alarm),
         ("s::a", 7, .scabbard2pcConsensusEvent (.vote true))]
      = some c6WitnessDb ∧
    ∀ r ∈ c6WitnessDb.events,
      (r.event_type = "ALARM" → detailCount c6WitnessDb r.id = 0) ∧
      ((r.event_type = "DELIVER" ∨ r.event_type = "START" ∨ r.event_type = "VOTE") →
        detailCount c6WitnessDb r.id = 1) :=
  ⟨rfl,
    C6_detail_multiplicity [("s::a", 7)] []
      [("s::a", 7, .scabbard2pcConsensusEvent .alarm),
       ("s::a", 7, .scabbard2pcConsensusEvent (.vote true))]
      c6WitnessDb rfl⟩

/-! ## Vote string encoding (C7) -/

theorem add_vote_row (db : DbState) (sid : String) (ep : Nat) (b : Bool)
    (eid : Nat) (db' : DbState)
    (h : add_consensus_event db sid ep (.scabbard2pcConsensusEvent (.vote b))
      = (.ok eid, db')) :
    db'.voteEvents = db.voteEvents ++
      [{ event_id := eid, service_id := sid, epoch := Int.ofNat ep,
         vote := if b then "TRUE" else "FALSE" }] := by
  unfold add_consensus_event at h
  cases hb : addConsensusEventBody db sid ep (.scabbard2pcConsensusEvent (.vote b)) with
  | error e =>
    obtain ⟨e1, s1⟩ := e
    rw [hb] at h
    simp at h
  | ok p =>
    rw [hb] at h
    obtain ⟨pid, pdb⟩ := p
    simp only [Prod.mk.injEq, Except.ok.injEq] at h
    obtain ⟨rfl, rfl⟩ := h
    cases hconv : i64TryFrom ep with
    | none =>
      simp only [addConsensusEventBody, hconv] at hb
      cases hb
    | some epi =>
      obtain ⟨hlt, rfl⟩ := i64TryFrom_eq_some hconv
      simp only [addConsensusEventBody, hconv] at hb
      cases hc : findCoordinatorContext db sid (Int.ofNat ep) with
      | some c =>
        cases hp : findParticipantContext db sid (Int.ofNat ep) with
        | some q =>
          simp only [hc, hp] at hb
          cases hb
        | none =>
          simp only [hc, hp, selectMaxEventId_insertEventRow] at hb
          simp only [Except.ok.injEq, Prod.mk.injEq] at hb
          obtain ⟨rfl, rfl⟩ := hb
          simp [insertVoteRow, insertEventRow]
      | none =>
        cases hp : findParticipantContext db sid (Int.ofNat ep) with
        | none =>
          simp only [hc, hp] at hb
          cases hb
        | some q =>
          simp only [hc, hp, selectMaxEventId_insertEventRow] at hb
          simp only [Except.ok.injEq, Prod.mk.injEq] at hb
          obtain ⟨rfl, rfl⟩ := hb
          simp [insertVoteRow, insertEventRow]

theorem add_voteResponse_row (db : DbState) (sid : String) (ep : Nat)
    (recv : String) (e : Int) (b : Bool) (eid : Nat) (db' : DbState)
    (h : add_consensus_event db sid ep
        (.scabbard2pcConsensusEvent (.deliver recv (.voteResponse e b)))
      = (.ok eid, db')) :
    db'.deliverEvents = db.deliverEvents ++
      [{ event_id := eid, service_id := sid, epoch := Int.ofNat ep,
         receiver_service_id := recv, message_type := "VOTE_RESPONSE",
         vote_response := some (if b then "TRUE" else "FALSE"),
         vote_request := none }] := by
  unfold add_consensus_event at h
  cases hb : addConsensusEventBody db sid ep
      (.scabbard2pcConsensusEvent (.deliver recv (.voteResponse e b))) with
  | error err =>
    obtain ⟨e1, s1⟩ := err
    rw [hb] at h
    simp at h
  | ok p =>
    rw [hb] at h
    obtain ⟨pid, pdb⟩ := p
    simp only [Prod.mk.injEq, Except.ok.injEq] at h
    obtain ⟨rfl, rfl⟩ := h
    cases hconv : i64TryFrom ep with
    | none =>
      simp only [addConsensusEventBody, hconv] at hb
      cases hb
    | some epi =>
      obtain ⟨hlt, rfl⟩ := i64TryFrom_eq_some hconv
      simp only [addConsensusEventBody, hconv] at hb
      cases hc : findCoordinatorContext db sid (Int.ofNat ep) with
      | some c =>
        cases hp : findParticipantContext db sid (Int.ofNat ep) with
        | some q =>
          simp only [hc, hp] at hb
          cases hb
        | none =>
          cases b with
          | true =>
            simp only [hc, hp, selectMaxEventId_insertEventRow] at hb
            simp only [Except.ok.injEq, Prod.mk.injEq] at hb
            obtain ⟨rfl, rfl⟩ := hb
            simp [insertDeliverRow, insertEventRow, messageTypeString]
          | false =>
            simp only [hc, hp, selectMaxEventId_insertEventRow] at hb
            simp only [Except.ok.injEq, Prod.mk.injEq] at hb
            obtain ⟨rfl, rfl⟩ := hb
            simp [insertDeliverRow, insertEventRow, messageTypeString]
      | none =>
        cases hp : findParticipantContext db sid (Int.ofNat ep) with
        | none =>
          simp only [hc, hp] at hb
          cases hb
        | some q =>
          simp only [hc, hp, selectMaxEventId_insertEventRow] at hb
          cases hb

/-- The inductive invariant behind C7: the vote column and the
`vote_response` column only ever hold the literals `TRUE` / `FALSE`. -/
def VoteLitInv (db : DbState) : Prop :=
  (∀ v ∈ db.voteEvents, v.vote = "TRUE" ∨ v.vote = "FALSE") ∧
  (∀ d ∈ db.deliverEvents,
    d.vote_response = none ∨ d.vote_response = some "TRUE" ∨
      d.vote_response = some "FALSE")

theorem VoteLitInv_add_ok (db : DbState) (sid : String) (ep : Nat)
    (cev : ScabbardConsensusEvent) (eid : Nat) (db' : DbState)
    (inv : VoteLitInv db)
    (h : add_consensus_event db sid ep cev = (.ok eid, db')) : VoteLitInv db' := by
  obtain ⟨-, -, -, -, event, -, -, hdet⟩ :=
    add_ok_characterization db sid ep cev eid db' h
  obtain ⟨invV, invD⟩ := inv
  rcases hdet with ⟨-, hd, -, hv⟩ | ⟨-, ⟨drow, -, hdlit, hd⟩, -, hv⟩ |
    ⟨-, ⟨srow, -, -⟩, hd, hv⟩ | ⟨-, ⟨vrow, -, hvlit, hv⟩, hd, -⟩
  · exact ⟨by rw [hv]; exact invV, by rw [hd]; exact invD⟩
  · refine ⟨by rw [hv]; exact invV, ?_⟩
    intro d hmem
    rw [hd] at hmem
    rcases List.mem_append.mp hmem with hmo | hmn
    · exact invD d hmo
    · have : d = drow := by simpa using hmn
      subst this
      exact hdlit
  · exact ⟨by rw [hv]; exact invV, by rw [hd]; exact invD⟩
  · refine ⟨?_, by rw [hd]; exact invD⟩
    intro v hmem
    rw [hv] at hmem
    rcases List.mem_append.mp hmem with hmo | hmn
    · exact invV v hmo
    · have : v = vrow := by simpa using hmn
      subst this
      exact hvlit

theorem runScript_voteLitInv :
    ∀ (script : List (String × Nat × ScabbardConsensusEvent)) (db db' : DbState),
      VoteLitInv db → runScript db script = some db' → VoteLitInv db' := by
  intro script
  induction script with
  | nil =>
    intro db db' hinv h
    unfold runScript at h
    obtain rfl : db = db' := by simpa using h
    exact hinv
  | cons step rest ih =>
    intro db db' hinv h
    obtain ⟨sid, ep, ev⟩ := step
    unfold runScript at h
    cases hadd : add_consensus_event db sid ep ev with
    | mk r s =>
      rw [hadd] at h
      cases r with
      | error e => simp at h
      | ok a => exact ih s db' (VoteLitInv_add_ok db sid ep ev a s hinv hadd) h

/-- **C7** Vote encoding: a successful `Vote(b)` append stores the vote
detail literal `TRUE`/`FALSE` according to `b`; a successful
`Deliver(_, VoteResponse(b))` append (possible only under a coordinator
context) stores `vote_response = TRUE/FALSE` according to `b`; and after
any sequence of successful appends from an empty log those columns hold
no other literal. -/
theorem C7_vote_encoding :
    (∀ (db : DbState) (sid : String) (ep : Nat) (b : Bool) (eid : Nat) (db' : DbState),
      add_consensus_event db sid ep (.scabbard2pcConsensusEvent (.vote b))
        = (.ok eid, db') →
      db'.voteEvents = db.voteEvents ++
        [{ event_id := eid, service_id := sid, epoch := Int.ofNat ep,
           vote := if b then "TRUE" else "FALSE" }]) ∧
    (∀ (db : DbState) (sid : String) (ep : Nat) (recv : String) (e : Int) (b : Bool)
        (eid : Nat) (db' : DbState),
      add_consensus_event db sid ep
          (.scabbard2pcConsensusEvent (.deliver recv (.voteResponse e b)))
        = (.ok eid, db') →
      db'.deliverEvents = db.deliverEvents ++
        [{ event_id := eid, service_id := sid, epoch := Int.ofNat ep,
           receiver_service_id := recv, message_type := "VOTE_RESPONSE",
           vote_response := some (if b then "TRUE" else "FALSE"),
           vote_request := none }]) ∧
    (∀ (cctx pctx : List (String × Int))
        (script : List (String × Nat × ScabbardConsensusEvent)) (db' : DbState),
      runScript (emptyLogDb cctx pctx) script = some db' →
      (∀ v ∈ db'.voteEvents, v.vote = "TRUE" ∨ v.vote = "FALSE") ∧
      (∀ d ∈ db'.deliverEvents,
        d.vote_response = none ∨ d.vote_response = some "TRUE" ∨
          d.vote_response = some "FALSE")) := by
  refine ⟨add_vote_row, add_voteResponse_row, ?_⟩
  intro cctx pctx script db' h
  have h0 : VoteLitInv (emptyLogDb cctx pctx) := by
    refine ⟨?_, ?_⟩ <;> intro d hd <;> cases hd
  exact runScript_voteLitInv script _ db' h0 h

/-- Witness state for C7, part 1: `Vote(false)` under a participant
context. -/
def c7aWitnessDb : DbState :=
  { coordinatorContexts := [], participantContexts := [("svc-F::g", 1)],
    events := [{ id := 1, service_id := "svc-F::g", epoch := 1, position := 1,
                 event_type := "VOTE", executed_at := none }],
    deliverEvents := [], startEvents := [],
    voteEvents := [{ event_id := 1, service_id := "svc-F::g", epoch := 1,
                     vote := "FALSE" }] }

/-- Witness state for C7, part 2: `Deliver(svc-B, VoteResponse(true))`
under a coordinator context (spec scenario 2). -/
def c7bWitnessDb : DbState :=
  { coordinatorContexts := [("svc-A::group", 7)], participantContexts := [],
    events := [{ id := 1, service_id := "svc-A::group", epoch := 7, position := 1,
                 event_type := "DELIVER", executed_at := none }],
    deliverEvents := [{ event_id := 1, service_id := "svc-A::group", epoch := 7,
                        receiver_service_id := "svc-B::group",
                        message_type := "VOTE_RESPONSE",
                        vote_response := some "TRUE", vote_request := none }],
    startEvents := [], voteEvents := [] }

/-- Witness for C7 on the spec's concrete scenarios 2 and 6. -/
theorem C7_vote_encoding_witness :
    (add_consensus_event (emptyLogDb [] [("svc-F::g", 1)]) "svc-F::g" 1
        (.scabbard2pcConsensusEvent (.vote false)) = (.ok 1, c7aWitnessDb) ∧
      c7aWitnessDb.voteEvents = (emptyLogDb [] [("svc-F::g", 1)]).voteEvents ++
        [{ event_id := 1, service_id := "svc-F::g", epoch := Int.ofNat 1,
           vote := if false then "TRUE" else "FALSE" }]) ∧
    (add_consensus_event (emptyLogDb [("svc-A::group", 7)] []) "svc-A::group" 7
        (.scabbard2pcConsensusEvent (.deliver "svc-B::group" (.voteResponse 7 true)))
        = (.ok 1, c7bWitnessDb) ∧
      c7bWitnessDb.deliverEvents
        = (emptyLogDb [("svc-A::group", 7)] []).deliverEvents ++
          [{ event_id := 1, service_id := "svc-A::group", epoch := Int.ofNat 7,
             receiver_service_id := "svc-B::group", message_type := "VOTE_RESPONSE",
             vote_response := some (if true then "TRUE" else "FALSE"),
             vote_request := none }]) ∧
    (runScript (emptyLogDb [] [("svc-F::g", 1)])
        [("svc-F::g", 1, .scabbard2pcConsensusEvent (.vote false))]
      = some c7aWitnessDb ∧
      (∀ v ∈ c7aWitnessDb.voteEvents, v.vote = "TRUE" ∨ v.vote = "FALSE") ∧
      (∀ d ∈ c7aWitnessDb.deliverEvents,
        d.vote_response = none ∨ d.vote_response = some "TRUE" ∨
          d.vote_response = some "FALSE")) :=
  ⟨⟨rfl,
      C7_vote_encoding.1 (emptyLogDb [] [("svc-F::g", 1)]) "svc-F::g" 1 false 1
        c7aWitnessDb rfl⟩,
    ⟨rfl,
      C7_vote_encoding.2.1 (emptyLogDb [("svc-A::group", 7)] []) "svc-A::group" 7
        "svc-B::group" 7 true 1 c7bWitnessDb rfl⟩,
    ⟨rfl,
      C7_vote_encoding.2.2 [] [("svc-F::g", 1)]
        [("svc-F::g", 1, .scabbard2pcConsensusEvent (.vote false))] c7aWitnessDb rfl⟩⟩

end Splinter
